import Mathlib

/-!
Verification development for the `lab_5_scrapper/scrapper.py` crawler.

The Python source is shallowly embedded: JSON configuration values become an
inductive `Json` type, the validation method becomes a function into
`Except ScrapperError Unit`, the crawl loop becomes structural recursion over
the seed list (with an explicit trace of the seed pages that are requested),
and the per-article parser becomes a function into `Except PyErr Article`.
Python exceptions are modelled as `Except` error values.
-/

/-- JSON values as read from the configuration file. -/
inductive Json where
  | null : Json
  | bool : Bool → Json
  | num : Int → Json
  | str : String → Json
  | arr : List Json → Json
  | obj : List (String × Json) → Json

/-- Exception classes of `scrapper.py`, plus `attributeError` and `valueError`
for untyped Python runtime errors (`AttributeError`, `ValueError`) that the
source can raise but never declares. -/
inductive ScrapperError where
  | incorrectSeedURLError
  | numberOfArticlesOutOfRangeError
  | incorrectNumberOfArticlesError
  | incorrectHeadersError
  | incorrectEncodingError
  | incorrectTimeoutError
  | incorrectVerifyError
  | attributeError
  deriving DecidableEq, Repr

/-- Python `isinstance(x, list)`. -/
def pyIsList : Json → Bool
  | .arr _ => true
  | _ => false

/-- Python `isinstance(x, dict)`. -/
def pyIsDict : Json → Bool
  | .obj _ => true
  | _ => false

/-- Python `isinstance(x, str)`. -/
def pyIsStr : Json → Bool
  | .str _ => true
  | _ => false

/-- Python `isinstance(x, int)`.  In Python `bool` is a subclass of `int`,
so booleans pass this check. -/
def pyIsInt : Json → Bool
  | .num _ => true
  | .bool _ => true
  | _ => false

/-- Python `isinstance(x, bool)`. -/
def pyIsBool : Json → Bool
  | .bool _ => true
  | _ => false

/-- The integer value of a Json number, with Python booleans counting as
`1` / `0`; other shapes are only ever used behind a `pyIsInt` guard. -/
def pyToInt : Json → Int
  | .num n => n
  | .bool b => if b then 1 else 0
  | _ => 0

/-- Python `s.startswith(p)` on character lists. -/
def pyStartsWith (s p : String) : Bool :=
  p.data.isPrefixOf s.data

/-- The parsed configuration file: a JSON object with the seven keys the
source reads (`config['seed_urls']`, `config['total_articles_to_find_and_parse']`,
`config['headers']`, `config['encoding']`, `config['timeout']`,
`config['should_verify_certificate']`, `config['headless_mode']`). -/
structure RawConfig where
  seed_urls : Json
  total_articles_to_find_and_parse : Json
  headers : Json
  encoding : Json
  timeout : Json
  should_verify_certificate : Json
  headless_mode : Json

/-- The elements of the `seed_urls` list (empty when it is not a list;
that shape is only probed behind the `isinstance(list)` guard). -/
def seedElems (c : RawConfig) : List Json :=
  match c.seed_urls with
  | .arr xs => xs
  | _ => []

/-- Validation rule: `isinstance(config['seed_urls'], list)` (line 107). -/
def seedUrlsIsList (c : RawConfig) : Bool :=
  pyIsList c.seed_urls

/-- One seed URL satisfies `seed_url.startswith('https://usinsk.online/')`
(and is a string at all, so the attribute access succeeds). -/
def seedMatches : Json → Bool
  | .str s => pyStartsWith s "https://usinsk.online/"
  | _ => false

/-- Validation rule: `all(seed_url.startswith('https://usinsk.online/') for
seed_url in config['seed_urls'])` (line 110), as a pure predicate. -/
def seedUrlsAllMatch (c : RawConfig) : Bool :=
  (seedElems c).all seedMatches

/-- Validation rule: `isinstance(q, int) and q > 0` for
`config['total_articles_to_find_and_parse']` (lines 113-114). -/
def quotaIsPosInt (c : RawConfig) : Bool :=
  pyIsInt c.total_articles_to_find_and_parse &&
    decide (0 < pyToInt c.total_articles_to_find_and_parse)

/-- Validation rule: `1 < q <= 150` (line 117). -/
def quotaInRange (c : RawConfig) : Bool :=
  decide (1 < pyToInt c.total_articles_to_find_and_parse) &&
    decide (pyToInt c.total_articles_to_find_and_parse ≤ 150)

/-- Validation rule: `isinstance(config['headers'], dict)` (line 120). -/
def headersIsDict (c : RawConfig) : Bool :=
  pyIsDict c.headers

/-- Validation rule: `isinstance(config['encoding'], str)` (line 123). -/
def encodingIsStr (c : RawConfig) : Bool :=
  pyIsStr c.encoding

/-- Validation rule: `isinstance(config['timeout'], int) and 0 < timeout < 60`
(line 126). -/
def timeoutOk (c : RawConfig) : Bool :=
  pyIsInt c.timeout && decide (0 < pyToInt c.timeout) &&
    decide (pyToInt c.timeout < 60)

/-- Validation rule: `isinstance(should_verify_certificate, bool) and
isinstance(headless_mode, bool)` (lines 129-130). -/
def flagsAreBool (c : RawConfig) : Bool :=
  pyIsBool c.should_verify_certificate && pyIsBool c.headless_mode

/-- Evaluation of the generator inside `all(seed_url.startswith(...) ...)`
(line 110): Python stops at the first element whose `startswith` is falsy
(raising `IncorrectSeedURLError`), and evaluating `.startswith` on a
non-string element raises an untyped `AttributeError`. -/
def checkSeedUrls : List Json → Except ScrapperError Unit
  | [] => .ok ()
  | .str s :: rest =>
    if pyStartsWith s "https://usinsk.online/" then checkSeedUrls rest
    else .error .incorrectSeedURLError
  | _ :: _ => .error .attributeError

/-- `Config._validate_config_content` (lines 100-131): the checks in source
order, each raising its exception class when violated. -/
def validate_config_content (c : RawConfig) : Except ScrapperError Unit :=
  if !seedUrlsIsList c then .error .incorrectSeedURLError
  else match checkSeedUrls (seedElems c) with
  | .error e => .error e
  | .ok _ =>
    if !quotaIsPosInt c then .error .incorrectNumberOfArticlesError
    else if !quotaInRange c then .error .numberOfArticlesOutOfRangeError
    else if !headersIsDict c then .error .incorrectHeadersError
    else if !encodingIsStr c then .error .incorrectEncodingError
    else if !timeoutOk c then .error .incorrectTimeoutError
    else if !flagsAreBool c then .error .incorrectVerifyError
    else .ok ()

/-- Modelled from the spec: the spec's §4.1 contract "fails with one of a
fixed set of named error kinds on the first violated rule; rule order is:
seed-URL shape → seed-URL list type/pattern → quota type → quota range →
header type → encoding type → timeout type/range → boolean flags type",
written as a function that reports the named error of the first violated
rule.  Kept separate from `validate_config_content` so the two can be
compared (refinement for claim C2). -/
def specFirstError (c : RawConfig) : Except ScrapperError Unit :=
  if !seedUrlsIsList c then .error .incorrectSeedURLError
  else if !seedUrlsAllMatch c then .error .incorrectSeedURLError
  else if !quotaIsPosInt c then .error .incorrectNumberOfArticlesError
  else if !quotaInRange c then .error .numberOfArticlesOutOfRangeError
  else if !headersIsDict c then .error .incorrectHeadersError
  else if !encodingIsStr c then .error .incorrectEncodingError
  else if !timeoutOk c then .error .incorrectTimeoutError
  else if !flagsAreBool c then .error .incorrectVerifyError
  else .ok ()

/-- `ConfigDTO` (from `core_utils.config_dto`): stores the seven raw values
unchanged.  Modelled from the spec: "on success, all seven fields are frozen
into the config object; subsequent reads are simple accessors". -/
structure ConfigDTO where
  seed_urls : Json
  total_articles : Json
  headers : Json
  encoding : Json
  timeout : Json
  should_verify_certificate : Json
  headless_mode : Json

/-- `Config._extract_config_content` (lines 81-98): re-reads the same file
and packs the seven values, unconverted, into a `ConfigDTO`. -/
def extract_config_content (c : RawConfig) : ConfigDTO :=
  { seed_urls := c.seed_urls
    total_articles := c.total_articles_to_find_and_parse
    headers := c.headers
    encoding := c.encoding
    timeout := c.timeout
    should_verify_certificate := c.should_verify_certificate
    headless_mode := c.headless_mode }

/-- The `Config` object after `__init__`: the seven private fields copied
from the DTO (lines 73-79). -/
structure Config where
  seed_urls : Json
  num_articles : Json
  headers : Json
  encoding : Json
  timeout : Json
  should_verify_certificate : Json
  headless_mode : Json

/-- `Config.__init__` (lines 63-79): validate, then extract and freeze the
seven fields.  A raised validation exception propagates. -/
def config_init (c : RawConfig) : Except ScrapperError Config :=
  match validate_config_content c with
  | .error e => .error e
  | .ok _ =>
    let dto := extract_config_content c
    .ok { seed_urls := dto.seed_urls
          num_articles := dto.total_articles
          headers := dto.headers
          encoding := dto.encoding
          timeout := dto.timeout
          should_verify_certificate := dto.should_verify_certificate
          headless_mode := dto.headless_mode }

/-- `Config.get_seed_urls` (line 141). -/
def get_seed_urls (c : Config) : Json := c.seed_urls

/-- `Config.get_num_articles` (line 149). -/
def get_num_articles (c : Config) : Json := c.num_articles

/-- `Config.get_headers` (line 158). -/
def get_headers (c : Config) : Json := c.headers

/-- `Config.get_encoding` (line 167). -/
def get_encoding (c : Config) : Json := c.encoding

/-- `Config.get_timeout` (line 176). -/
def get_timeout (c : Config) : Json := c.timeout

/-- `Config.get_verify_certificate` (line 185). -/
def get_verify_certificate (c : Config) : Json := c.should_verify_certificate

/-- `Config.get_headless_mode` (line 194). -/
def get_headless_mode (c : Config) : Json := c.headless_mode

/-- A teaser element found by `soup.find_all(class_='more-link')` (line 256),
reduced to the one attribute the crawler reads. -/
structure Teaser where
  href : String
  deriving DecidableEq, Repr

/-- `Crawler._extract_url` (lines 235-245): `article_bs['href']`. -/
def extract_url (link : Teaser) : String :=
  link.href

/-- The inner loop of `Crawler.find_articles` (lines 256-260) over the
teaser elements of one fetched seed page: before looking at each link the
loop breaks when `len(self.urls)` equals the quota; otherwise the extracted
URL is appended when not already present. -/
def collect_links (quota : Nat) (urls : List String) : List Teaser → List String
  | [] => urls
  | t :: ts =>
    if urls.length = quota then urls
    else if extract_url t ∈ urls then collect_links quota urls ts
    else collect_links quota (urls ++ [extract_url t]) ts

/-- `Crawler.find_articles` (lines 247-260).  The network is a function
`fetch` from a seed URL to `none` (response not ok) or the teaser elements
of the page.  The second component records, in order, every seed URL for
which `make_request` is issued (line 252); the source requests every seed
unconditionally before inspecting the response. -/
def find_articles (fetch : String → Option (List Teaser)) (quota : Nat) :
    List String → List String → List String × List String
  | [], urls => (urls, [])
  | s :: rest, urls =>
    match fetch s with
    | none =>
      let r := find_articles fetch quota rest urls
      (r.1, s :: r.2)
    | some page =>
      let r := find_articles fetch quota rest (collect_links quota urls page)
      (r.1, s :: r.2)

/-- The URL list of a full crawl: `Crawler.__init__` starts from
`self.urls = []` (line 232) and `find_articles` fills it. -/
def crawler_urls (fetch : String → Option (List Teaser)) (quota : Nat)
    (seeds : List String) : List String :=
  (find_articles fetch quota seeds []).1

/-- All article URLs available across the seed pages that fetch
successfully, in page order. -/
def available_urls (fetch : String → Option (List Teaser))
    (seeds : List String) : List String :=
  ((seeds.filterMap fetch).flatten).map extract_url

/-- The number of distinct article URLs available across the successfully
fetched seed pages. -/
def available_url_count (fetch : String → Option (List Teaser))
    (seeds : List String) : Nat :=
  (available_urls fetch seeds).dedup.length

/-- Python runtime errors the parser can raise: `AttributeError` (calling
`.text` on the `None` returned by a failed `soup.find`) and `ValueError`
(from `datetime.strptime` on a non-matching string). -/
inductive PyErr where
  | attributeError
  | valueError
  deriving DecidableEq, Repr

/-- A calendar date, the result of `datetime.strptime` (time fields are all
zero and are dropped). -/
structure Date where
  year : Nat
  month : Nat
  day : Nat
  deriving DecidableEq, Repr

/-- An article page as seen through the four queries the parser makes:
the texts of the elements with `style="text-align: justify;"` (line 305),
the text of the first element of class `entry-title` (line 317) when one
exists, the texts of the elements of class `entry-category` (line 320),
and the text of the first element of class `td-post-date` (line 324) when
one exists.  `byline` stands for author markup that the source never
queries. -/
structure ArticlePage where
  justParagraphs : List String
  entryTitle : Option String
  entryCategories : List String
  tdPostDate : Option String
  byline : Option String

/-- The `Article` record (from `core_utils.article`).  Modelled from the
spec: "constructed empty at parse start" with "title (string, empty until
parsed)", body text empty, "publication date (calendar date)" unset; the
author sentinel is installed by the parser, not by construction. -/
structure Article where
  url : String
  article_id : Nat
  title : String := ""
  text : String := ""
  author : List String := []
  topics : List String := []
  date : Option Date := none
  deriving DecidableEq, Repr

/-- `Article(self.full_url, self.article_id)` (line 294): the record in its
empty-but-constructed state. -/
def article_new (full_url : String) (article_id : Nat) : Article :=
  { url := full_url, article_id := article_id }

/-- Numeric value of a digit character. -/
def digitVal (c : Char) : Nat := c.toNat - 48

/-- Read exactly two digits. -/
def read2 : List Char → Option (Nat × List Char)
  | a :: b :: rest =>
    if a.isDigit && b.isDigit then some (10 * digitVal a + digitVal b, rest)
    else none
  | _ => none

/-- Read exactly one digit. -/
def read1 : List Char → Option (Nat × List Char)
  | a :: rest => if a.isDigit then some (digitVal a, rest) else none
  | _ => none

/-- Consume a literal dot. -/
def readDot : List Char → Option (List Char)
  | c :: rest => if c = '.' then some rest else none
  | _ => none

/-- After day and month: a literal dot, then exactly two digits of year
(`%y`), then end of string. -/
def readYearEnd (d m : Nat) (cs : List Char) : Option (Nat × Nat × Nat) :=
  match readDot cs with
  | none => none
  | some cs1 =>
    match read2 cs1 with
    | some (y, []) => some (d, m, y)
    | _ => none

/-- After the day: a literal dot, then the month (`%m`: two digits `01`-`12`,
with backtracking to one digit `1`-`9`), then the year. -/
def readMonthTail (d : Nat) (cs : List Char) : Option (Nat × Nat × Nat) :=
  match readDot cs with
  | none => none
  | some cs1 =>
    (match read2 cs1 with
     | some (m, cs2) =>
       if 1 ≤ m ∧ m ≤ 12 then readYearEnd d m cs2 else none
     | none => none) <|>
    (match read1 cs1 with
     | some (m, cs2) => if 1 ≤ m then readYearEnd d m cs2 else none
     | none => none)

/-- The `'%d.%m.%y'` pattern of `datetime.strptime` (line 337): day as two
digits `01`-`31` with backtracking to one digit `1`-`9`, then month, then a
two-digit year, matching the whole string. -/
def readDayMonthYear (cs : List Char) : Option (Nat × Nat × Nat) :=
  (match read2 cs with
   | some (d, cs1) => if 1 ≤ d ∧ d ≤ 31 then readMonthTail d cs1 else none
   | none => none) <|>
  (match read1 cs with
   | some (d, cs1) => if 1 ≤ d then readMonthTail d cs1 else none
   | none => none)

/-- Gregorian leap-year rule, as used by `datetime`. -/
def isLeapYear (y : Nat) : Bool :=
  (y % 4 = 0 && y % 100 ≠ 0) || y % 400 = 0

/-- Days in a month, as enforced by the `datetime` constructor. -/
def daysInMonth (y m : Nat) : Nat :=
  if m = 2 then (if isLeapYear y then 29 else 28)
  else if m = 4 ∨ m = 6 ∨ m = 9 ∨ m = 11 then 30
  else 31

/-- `datetime.strptime(s, '%d.%m.%y')`: match the pattern, widen the
two-digit year with the POSIX pivot (`00`-`68` → 2000s, `69`-`99` → 1900s),
and validate the day against the month; any failure is a `ValueError`. -/
def strptime_dmy (s : String) : Except PyErr Date :=
  match readDayMonthYear s.data with
  | none => .error .valueError
  | some (d, m, yy) =>
    let y := if yy ≤ 68 then 2000 + yy else 1900 + yy
    if d ≤ daysInMonth y m then .ok ⟨y, m, d⟩ else .error .valueError

/-- `HTMLParser.unify_date_format` (lines 326-337):
`date_str = date_str[:-4] + date_str[-2:]` (Python string slicing over
characters, with the usual clamping for short strings), then
`datetime.strptime(date_str, '%d.%m.%y')`. -/
def unify_date_format (s : String) : Except PyErr Date :=
  let cs := s.data
  strptime_dmy ⟨cs.take (cs.length - 4) ++ cs.drop (cs.length - 2)⟩

/-- `HTMLParser._fill_article_with_text` (lines 297-308): join the texts of
the justified paragraphs with a newline into `self.article.text`. -/
def fill_article_with_text (a : Article) (p : ArticlePage) : Article :=
  { a with text := String.intercalate "\n" p.justParagraphs }

/-- `HTMLParser._fill_article_with_meta_information` (lines 310-324), with
each `soup.find(...).text` on a missing element raising `AttributeError`:
title, then the constant author sentinel `['NOT FOUND']`, then the topics,
then the date through `unify_date_format`. -/
def fill_article_with_meta_information (a : Article) (p : ArticlePage) :
    Except PyErr Article :=
  match p.entryTitle with
  | none => .error .attributeError
  | some titleText =>
    let a1 := { a with title := titleText, author := ["NOT FOUND"],
                       topics := p.entryCategories }
    match p.tdPostDate with
    | none => .error .attributeError
    | some ds =>
      match unify_date_format ds with
      | .error e => .error e
      | .ok d => .ok { a1 with date := some d }

/-- `HTMLParser.parse` (lines 340-353): fetch the article page; when the
response is not ok, return the constructed article unchanged; otherwise
fill text then metadata, letting any lookup or date error propagate. -/
def parse (fetchArticle : String → Option ArticlePage) (full_url : String)
    (article_id : Nat) : Except PyErr Article :=
  match fetchArticle full_url with
  | none => .ok (article_new full_url article_id)
  | some p =>
    fill_article_with_meta_information
      (fill_article_with_text (article_new full_url article_id) p) p

def c3Fetch : String → Option (List Teaser) :=
  fun s => if s = "s" then some [⟨"a"⟩, ⟨"b"⟩, ⟨"c"⟩] else none

def c5Fetch : String → Option (List Teaser) :=
  fun s => if s = "s1" then some [⟨"a1"⟩] else some [⟨"a2"⟩]

def c6Fetch : String → Option ArticlePage := fun _ => none

def c7Page : ArticlePage := ⟨["Body text."], none, [], some "12.08.2022", none⟩

def c7Fetch : String → Option ArticlePage := fun _ => some c7Page

def c10Page : ArticlePage :=
  ⟨["First paragraph."], some "Title", ["News"], some "12.08.2022",
    some "I. Petrov"⟩

def c10Fetch : String → Option ArticlePage := fun _ => some c10Page

def c10Article : Article :=
  ⟨"https://usinsk.online/a", 1, "Title", "First paragraph.", ["NOT FOUND"],
    ["News"], some ⟨2022, 8, 12⟩⟩

def c1ConfigQuotaOne : RawConfig :=
  ⟨.arr [.str "https://usinsk.online/news/1"], .num 1, .obj [],
    .str "utf-8", .num 5, .bool true, .bool false⟩

def configRules (c : RawConfig) : List Bool :=
  [seedUrlsIsList c, seedUrlsAllMatch c, quotaIsPosInt c, quotaInRange c,
    headersIsDict c, encodingIsStr c, timeoutOk c, flagsAreBool c]

def c2ConfigBadSeed : RawConfig :=
  ⟨.arr [.num 3], .num 10, .obj [], .str "utf-8", .num 5, .bool true,
    .bool false⟩

def c2ConfigBadHeaders : RawConfig :=
  ⟨.arr [.str "https://usinsk.online/news/1"], .num 10, .num 0,
    .str "utf-8", .num 5, .bool true, .bool false⟩

def c9Config : RawConfig :=
  ⟨.arr [.str "https://usinsk.online/news/1"], .num 10,
    .obj [("User-Agent", .str "Mozilla/5.0")], .str "utf-8", .num 5,
    .bool true, .bool false⟩

theorem collect_links_subset (quota : Nat) (urls : List String)
    (ts : List Teaser) : urls ⊆ collect_links quota urls ts := by
  induction ts generalizing urls with
  | nil => exact fun a ha => ha
  | cons t ts ih =>
    simp only [collect_links]
    split
    · exact fun a ha => ha
    · split
      · exact ih urls
      · exact fun a ha => ih _ (List.mem_append_left _ ha)

theorem collect_links_length_le (quota : Nat) (urls : List String)
    (ts : List Teaser) (h : urls.length ≤ quota) :
    (collect_links quota urls ts).length ≤ quota := by
  induction ts generalizing urls with
  | nil => exact h
  | cons t ts ih =>
    simp only [collect_links]
    split
    · exact h
    · split
      · exact ih urls h
      · apply ih
        rename_i hne _
        simp only [List.length_append, List.length_singleton]
        omega

theorem collect_links_nodup (quota : Nat) (urls : List String)
    (ts : List Teaser) (h : urls.Nodup) :
    (collect_links quota urls ts).Nodup := by
  induction ts generalizing urls with
  | nil => exact h
  | cons t ts ih =>
    simp only [collect_links]
    split
    · exact h
    · split
      · exact ih urls h
      · apply ih
        rename_i hmem
        simp [List.nodup_append, h, hmem]

theorem collect_links_quota_eq (quota : Nat) (urls : List String)
    (ts : List Teaser) (h : urls.length = quota) :
    collect_links quota urls ts = urls := by
  cases ts with
  | nil => rfl
  | cons t ts => simp [collect_links, h]

theorem collect_links_covers (quota : Nat) (urls : List String)
    (ts : List Teaser) :
    (collect_links quota urls ts).length = quota ∨
      ∀ t ∈ ts, extract_url t ∈ collect_links quota urls ts := by
  induction ts generalizing urls with
  | nil => right; intro t ht; cases ht
  | cons t ts ih =>
    simp only [collect_links]
    split
    · left; assumption
    · split
      · rcases ih urls with h | h
        · left; exact h
        · right
          intro t' ht'
          rcases List.mem_cons.mp ht' with rfl | h'
          · rename_i hmem
            exact collect_links_subset _ _ _ hmem
          · exact h _ h'
      · rcases ih (urls ++ [extract_url t]) with h | h
        · left; exact h
        · right
          intro t' ht'
          rcases List.mem_cons.mp ht' with rfl | h'
          · exact collect_links_subset _ _ _
              (List.mem_append_right _ (List.mem_singleton_self _))
          · exact h _ h'

theorem find_articles_trace (fetch : String → Option (List Teaser))
    (quota : Nat) (seeds : List String) (urls : List String) :
    (find_articles fetch quota seeds urls).2 = seeds := by
  induction seeds generalizing urls with
  | nil => rfl
  | cons s rest ih =>
    simp only [find_articles]
    cases fetch s with
    | none => simpa using ih urls
    | some page => simpa using ih (collect_links quota urls page)

theorem find_articles_subset (fetch : String → Option (List Teaser))
    (quota : Nat) (seeds : List String) (urls : List String) :
    urls ⊆ (find_articles fetch quota seeds urls).1 := by
  induction seeds generalizing urls with
  | nil => exact fun a ha => ha
  | cons s rest ih =>
    simp only [find_articles]
    cases fetch s with
    | none => simpa using ih urls
    | some page =>
      simp only
      exact fun a ha =>
        ih (collect_links quota urls page) (collect_links_subset _ _ _ ha)

theorem find_articles_length_le (fetch : String → Option (List Teaser))
    (quota : Nat) (seeds : List String) (urls : List String)
    (h : urls.length ≤ quota) :
    (find_articles fetch quota seeds urls).1.length ≤ quota := by
  induction seeds generalizing urls with
  | nil => exact h
  | cons s rest ih =>
    simp only [find_articles]
    cases fetch s with
    | none => simpa using ih urls h
    | some page =>
      simpa using ih (collect_links quota urls page)
        (collect_links_length_le _ _ _ h)

theorem find_articles_nodup (fetch : String → Option (List Teaser))
    (quota : Nat) (seeds : List String) (urls : List String)
    (h : urls.Nodup) :
    (find_articles fetch quota seeds urls).1.Nodup := by
  induction seeds generalizing urls with
  | nil => exact h
  | cons s rest ih =>
    simp only [find_articles]
    cases fetch s with
    | none => simpa using ih urls h
    | some page =>
      simpa using ih (collect_links quota urls page)
        (collect_links_nodup _ _ _ h)

theorem find_articles_quota_eq (fetch : String → Option (List Teaser))
    (quota : Nat) (seeds : List String) (urls : List String)
    (h : urls.length = quota) :
    (find_articles fetch quota seeds urls).1 = urls := by
  induction seeds generalizing urls with
  | nil => rfl
  | cons s rest ih =>
    simp only [find_articles]
    cases fetch s with
    | none => simpa using ih urls h
    | some page =>
      simpa [collect_links_quota_eq quota urls page h] using ih urls h

theorem find_articles_covers (fetch : String → Option (List Teaser))
    (quota : Nat) (seeds : List String) (urls : List String) :
    (find_articles fetch quota seeds urls).1.length = quota ∨
      ∀ u ∈ available_urls fetch seeds,
        u ∈ (find_articles fetch quota seeds urls).1 := by
  induction seeds generalizing urls with
  | nil =>
    right
    intro u hu
    simp [available_urls] at hu
  | cons s rest ih =>
    simp only [find_articles]
    cases hf : fetch s with
    | none =>
      rcases ih urls with h | h
      · left; simpa using h
      · right
        intro u hu
        simp only [available_urls, List.filterMap_cons, hf] at hu
        simpa using h u hu
    | some page =>
      rcases collect_links_covers quota urls page with hq | hcov
      · left
        simp only
        rw [find_articles_quota_eq fetch quota rest _ hq]
        exact hq
      · rcases ih (collect_links quota urls page) with h | h
        · left; simpa using h
        · right
          intro u hu
          simp only [available_urls, List.filterMap_cons, hf,
            List.flatten_cons, List.map_append] at hu
          rcases List.mem_append.mp hu with h1 | h1
          · rcases List.mem_map.mp h1 with ⟨t, ht, rfl⟩
            exact find_articles_subset fetch quota rest _ (hcov t ht)
          · simpa using h u h1

/-- Claim C3: for every run of `find_articles`, the length of the resulting
URL sequence never exceeds the configured quota, and it equals the quota
whenever the successfully fetched seed pages together contain at least
quota-many distinct article links. -/
theorem find_articles_respects_quota (fetch : String → Option (List Teaser))
    (quota : Nat) (seeds : List String) :
    (crawler_urls fetch quota seeds).length ≤ quota ∧
      (quota ≤ available_url_count fetch seeds →
        (crawler_urls fetch quota seeds).length = quota) := by
  constructor
  · exact find_articles_length_le fetch quota seeds [] (Nat.zero_le _)
  · intro hq
    rcases find_articles_covers fetch quota seeds [] with h | h
    · exact h
    · have hsub : (available_urls fetch seeds).dedup ⊆
          crawler_urls fetch quota seeds :=
        fun u hu => h u (List.mem_dedup.mp hu)
      have hle : (available_urls fetch seeds).dedup.length ≤
          (crawler_urls fetch quota seeds).length :=
        ((List.nodup_dedup _).subperm hsub).length_le
      have hle2 := find_articles_length_le fetch quota seeds [] (Nat.zero_le _)
      unfold available_url_count at hq
      exact Nat.le_antisymm hle2 (hq.trans hle)

theorem find_articles_respects_quota_witness :
    2 ≤ available_url_count c3Fetch ["s"] ∧
      (crawler_urls c3Fetch 2 ["s"]).length = 2 :=
  ⟨by decide, (find_articles_respects_quota c3Fetch 2 ["s"]).2 (by decide)⟩

/-- Claim C4: for every run of `find_articles` over any seed pages, the
resulting URL sequence contains no repeated element: a URL already present
is never appended again, including across multiple seed pages. -/
theorem find_articles_no_duplicates (fetch : String → Option (List Teaser))
    (quota : Nat) (seeds : List String) :
    (crawler_urls fetch quota seeds).Nodup :=
  find_articles_nodup fetch quota seeds [] List.nodup_nil

/-- Claim C5 fails on the code: with seeds ["s1", "s2"] and quota 1 the
quota is already reached after the first seed (crawling just ["s1"] yields
quota-many URLs), yet the full run still issues a request for "s2" — the
request trace lists it — even though the URL list is left unchanged. -/
theorem find_articles_fetches_after_quota :
    (find_articles c5Fetch 1 ["s1"] []).1.length = 1 ∧
      "s2" ∈ (find_articles c5Fetch 1 ["s1", "s2"] []).2 ∧
      (find_articles c5Fetch 1 ["s1", "s2"] []).1 = ["a1"] := by
  refine ⟨rfl, ?_, rfl⟩
  have h : (find_articles c5Fetch 1 ["s1", "s2"] []).2 = ["s1", "s2"] := rfl
  rw [h]
  simp

/-- Claim C5, amended: once the collected URL count reaches the quota, no
further URL is appended — the URL list is final across all remaining
seeds — but a request is still issued for every remaining seed page
(link-level processing alone is skipped). -/
theorem find_articles_quota_stops_collecting
    (fetch : String → Option (List Teaser)) (quota : Nat)
    (seeds : List String) (urls : List String)
    (h : urls.length = quota) :
    (find_articles fetch quota seeds urls).1 = urls ∧
      (find_articles fetch quota seeds urls).2 = seeds :=
  ⟨find_articles_quota_eq fetch quota seeds urls h,
    find_articles_trace fetch quota seeds urls⟩

theorem find_articles_quota_stops_collecting_witness :
    (find_articles c5Fetch 1 ["s2"] ["a1"]).1 = ["a1"] ∧
      (find_articles c5Fetch 1 ["s2"] ["a1"]).2 = ["s2"] :=
  find_articles_quota_stops_collecting c5Fetch 1 ["s2"] ["a1"] rfl

/-- Claim C6: for every article URL whose fetch returns a non-ok status,
`parse` returns the record in its empty-but-constructed state (title and
body text empty, date unset) and raises no error. -/
theorem parse_fetch_not_ok (fetchArticle : String → Option ArticlePage)
    (full_url : String) (article_id : Nat)
    (h : fetchArticle full_url = none) :
    parse fetchArticle full_url article_id =
        .ok (article_new full_url article_id) ∧
      (article_new full_url article_id).title = "" ∧
      (article_new full_url article_id).text = "" ∧
      (article_new full_url article_id).date = none := by
  refine ⟨?_, rfl, rfl, rfl⟩
  simp [parse, h]

theorem parse_fetch_not_ok_witness :
    parse c6Fetch "https://usinsk.online/a" 1 =
      .ok (article_new "https://usinsk.online/a" 1) :=
  (parse_fetch_not_ok c6Fetch "https://usinsk.online/a" 1 rfl).1

/-- Claim C7 fails on the code: on a successfully fetched article page with
no `entry-title` element, `parse` does not catch the lookup failure and
return a partial record; the `.text` access on the `None` returned by
`find` (line 317) raises `AttributeError`, which propagates out of
`parse`. -/
theorem parse_missing_title_raises :
    c7Page.entryTitle = none ∧
      parse c7Fetch "https://usinsk.online/a" 1 = .error .attributeError :=
  ⟨rfl, rfl⟩

/-- Claim C10: whenever the article fetch succeeds and `parse` returns a
record, the record's author field is exactly the one-element sentinel list
`['NOT FOUND']` — regardless of the page, including pages carrying a
byline, which the source never queries. -/
theorem parse_author_is_sentinel (fetchArticle : String → Option ArticlePage)
    (full_url : String) (article_id : Nat) (p : ArticlePage) (a : Article)
    (hf : fetchArticle full_url = some p)
    (hp : parse fetchArticle full_url article_id = .ok a) :
    a.author = ["NOT FOUND"] := by
  simp only [parse, hf] at hp
  unfold fill_article_with_meta_information at hp
  cases hpt : p.entryTitle with
  | none =>
    simp only [hpt] at hp
    exact Except.noConfusion hp
  | some titleText =>
    simp only [hpt] at hp
    cases hpd : p.tdPostDate with
    | none =>
      simp only [hpd] at hp
      exact Except.noConfusion hp
    | some ds =>
      simp only [hpd] at hp
      cases hud : unify_date_format ds with
      | error e =>
        simp only [hud] at hp
        exact Except.noConfusion hp
      | ok d =>
        simp only [hud, Except.ok.injEq] at hp
        subst hp
        rfl

theorem parse_author_is_sentinel_witness :
    c10Article.author = ["NOT FOUND"] :=
  parse_author_is_sentinel c10Fetch "https://usinsk.online/a" 1 c10Page
    c10Article rfl rfl

/-- Claim C8: date normalization is a deterministic function of its input
string, and on the representative input "12.08.2022" — whose slice
`[:-4] + [-2:]` is the "12.08.22"-shaped remainder — it yields the calendar
date 2022-08-12. -/
theorem unify_date_format_deterministic :
    (∀ s t : String, s = t → unify_date_format s = unify_date_format t) ∧
      unify_date_format "12.08.2022" = .ok ⟨2022, 8, 12⟩ :=
  ⟨fun _ _ h => by rw [h], rfl⟩

theorem unify_date_format_deterministic_witness :
    unify_date_format "12.08.2022" = unify_date_format "12.08.2022" :=
  unify_date_format_deterministic.1 "12.08.2022" "12.08.2022" rfl

/-- Claim C1 fails on the code: with every other field valid, the in-spec
quota value 1 is rejected by `_validate_config_content` with
`NumberOfArticlesOutOfRangeError` (line 117 demands `1 < q`), while the
same configuration with quota 2 is accepted. -/
theorem quota_one_rejected :
    validate_config_content c1ConfigQuotaOne =
        .error .numberOfArticlesOutOfRangeError ∧
      validate_config_content
        { c1ConfigQuotaOne with total_articles_to_find_and_parse := .num 2 } =
        .ok () :=
  ⟨rfl, rfl⟩

/-- Claim C2 fails on the code at a configuration violating exactly one
rule: `c2ConfigBadSeed` satisfies every validation rule except the
seed-URL pattern rule (its seed list holds the non-string `3`), yet
validation raises the untyped `AttributeError` (from evaluating
`(3).startswith`), not the named `IncorrectSeedURLError`. -/
theorem single_violation_not_named_error :
    (configRules c2ConfigBadSeed).count false = 1 ∧
      seedUrlsAllMatch c2ConfigBadSeed = false ∧
      validate_config_content c2ConfigBadSeed = .error .attributeError ∧
      ScrapperError.attributeError ≠ ScrapperError.incorrectSeedURLError :=
  ⟨rfl, rfl, rfl, by decide⟩

theorem checkSeedUrls_eq_all (xs : List Json)
    (h : ∀ j ∈ xs, pyIsStr j = true) :
    checkSeedUrls xs =
      (if xs.all seedMatches then .ok ()
       else .error .incorrectSeedURLError) := by
  induction xs with
  | nil => rfl
  | cons j rest ih =>
    cases j with
    | str s =>
      simp only [checkSeedUrls, List.all_cons, seedMatches]
      by_cases hs : pyStartsWith s "https://usinsk.online/"
      · rw [if_pos hs, ih (fun j hj => h j (List.mem_cons_of_mem _ hj))]
        simp [hs]
      · simp [hs]
    | null => exact absurd (h _ (List.mem_cons_self _ _)) (by simp [pyIsStr])
    | bool b => exact absurd (h _ (List.mem_cons_self _ _)) (by simp [pyIsStr])
    | num n => exact absurd (h _ (List.mem_cons_self _ _)) (by simp [pyIsStr])
    | arr xs => exact absurd (h _ (List.mem_cons_self _ _)) (by simp [pyIsStr])
    | obj kvs => exact absurd (h _ (List.mem_cons_self _ _)) (by simp [pyIsStr])

/-- Claim C2, amended: for every configuration whose seed-URL entries are
all strings, validation fails with exactly the named error kind of the
first violated rule in the spec's stated order (`specFirstError`); in
particular a configuration violating exactly one rule yields that rule's
specific error independent of the other fields.  (A non-string seed entry
instead raises an untyped `AttributeError`.) -/
theorem validate_first_violated_rule (c : RawConfig)
    (h : ∀ j ∈ seedElems c, pyIsStr j = true) :
    validate_config_content c = specFirstError c := by
  unfold validate_config_content specFirstError seedUrlsAllMatch
  rw [checkSeedUrls_eq_all (seedElems c) h]
  by_cases hl : seedUrlsIsList c <;>
    by_cases hm : (seedElems c).all seedMatches <;>
      simp [hl, hm]

theorem validate_first_violated_rule_witness :
    validate_config_content c2ConfigBadHeaders =
        specFirstError c2ConfigBadHeaders ∧
      specFirstError c2ConfigBadHeaders = .error .incorrectHeadersError :=
  ⟨validate_first_violated_rule c2ConfigBadHeaders (by decide), rfl⟩

/-- Claim C9: for every configuration file passing validation,
`Config.__init__` succeeds, freezing the file's seven values, and each of
the seven accessors returns exactly the value stored in the file. -/
theorem config_roundtrip (c : RawConfig)
    (h : validate_config_content c = .ok ()) :
    config_init c = .ok ⟨c.seed_urls, c.total_articles_to_find_and_parse,
        c.headers, c.encoding, c.timeout, c.should_verify_certificate,
        c.headless_mode⟩ ∧
      ∀ cfg, config_init c = .ok cfg →
        get_seed_urls cfg = c.seed_urls ∧
        get_num_articles cfg = c.total_articles_to_find_and_parse ∧
        get_headers cfg = c.headers ∧
        get_encoding cfg = c.encoding ∧
        get_timeout cfg = c.timeout ∧
        get_verify_certificate cfg = c.should_verify_certificate ∧
        get_headless_mode cfg = c.headless_mode := by
  have h1 : config_init c = .ok ⟨c.seed_urls,
      c.total_articles_to_find_and_parse, c.headers, c.encoding, c.timeout,
      c.should_verify_certificate, c.headless_mode⟩ := by
    unfold config_init
    rw [h]
    rfl
  refine ⟨h1, fun cfg hcfg => ?_⟩
  rw [h1] at hcfg
  injection hcfg with h2
  subst h2
  exact ⟨rfl, rfl, rfl, rfl, rfl, rfl, rfl⟩

theorem config_roundtrip_witness :
    config_init c9Config = .ok ⟨c9Config.seed_urls,
        c9Config.total_articles_to_find_and_parse, c9Config.headers,
        c9Config.encoding, c9Config.timeout,
        c9Config.should_verify_certificate, c9Config.headless_mode⟩ :=
  (config_roundtrip c9Config rfl).1
